import Mathlib

/-!
Verification development for the MUSE remix application.

The definitions below are a shallow embedding of the JavaScript source:
`frontend/src/components/Mixer.js` (debounced live gain updates, crossfade
handover, separation-progress polling), `frontend/src/utils/audioFeatures.js`
(feature normalization), the application root (`handleSaveMix`,
`handleDeleteSong`) and `utils/userPreferenceModel.js`
(`UserPreferenceModel.predict` / `train` / `batchTrain`).

Machine reals of the source are modelled as `ℚ`, JavaScript integers as `ℤ`
or `ℕ`.  The TensorFlow.js dense layers are embedded with explicit kernel
and bias parameters; the `tanh` activation of the output layer is kept as an
explicit function parameter (the library's numeric kernel is an external
collaborator), so theorems state exactly which property of it they use.
-/

/-- JavaScript `Math.round`: round half up (toward positive infinity). -/
def jsRound (q : ℚ) : ℤ := ⌊q + 1/2⌋

/-- Per-stem gain values, integers in decibels (`gains` state of `Mixer.js`). -/
structure GainSettings where
  vocals : ℤ
  drums : ℤ
  bass : ℤ
  other : ℤ
deriving DecidableEq, Repr

/-- Clamp a gain to the valid range: `Math.max(-24, Math.min(12, g))`. -/
def clampGain (z : ℤ) : ℤ := max (-24) (min 12 z)

/-- A vector of `n` rationals (one tensor row). -/
def Vec (n : ℕ) := Fin n → ℚ

/-- Parameters of one `tf.layers.dense` layer: kernel matrix and bias vector. -/
structure DenseParams (nIn nOut : ℕ) where
  kernel : Fin nOut → Fin nIn → ℚ
  bias : Fin nOut → ℚ

/-- Forward pass of a dense layer: activation applied to `kernel · x + bias`. -/
def denseForward {nIn nOut : ℕ} (act : ℚ → ℚ) (p : DenseParams nIn nOut)
    (x : Vec nIn) : Vec nOut :=
  fun i => act ((∑ j, p.kernel i j * x j) + p.bias i)

/-- The `relu` activation. -/
def relu (x : ℚ) : ℚ := max x 0

/-- Parameters of the network built by `UserPreferenceModel.createModel`:
dense 23→64 (relu), 64→32 (relu), 32→16 (relu), 16→4 (tanh).  TensorFlow.js
initializes kernels with `glorotUniform` (arbitrary here) and biases with
zeros, so a freshly created model is any `ModelParams` whose biases are 0. -/
structure ModelParams where
  l1 : DenseParams 23 64
  l2 : DenseParams 64 32
  l3 : DenseParams 32 16
  l4 : DenseParams 16 4

/-- Full forward mapping of the network; `th` is the output `tanh` activation,
kept as a parameter of the embedding. -/
def forward (th : ℚ → ℚ) (m : ModelParams) (x : Vec 23) : Vec 4 :=
  denseForward th m.l4
    (denseForward relu m.l3
      (denseForward relu m.l2
        (denseForward relu m.l1 x)))

/-- Postprocessing of one raw output in `UserPreferenceModel.predict`:
`Math.round(v * 18 - 6)` then clamped to `[-24, 12]`. -/
def gainOf (v : ℚ) : ℤ := clampGain (jsRound (v * 18 - 6))

/-- `UserPreferenceModel.predict`: forward pass, then affine map and clamp of
each of the four outputs. -/
def predictGains (th : ℚ → ℚ) (m : ModelParams) (x : Vec 23) : GainSettings :=
  { vocals := gainOf (forward th m x 0)
    drums := gainOf (forward th m x 1)
    bass := gainOf (forward th m x 2)
    other := gainOf (forward th m x 3) }

/-- The all-zero parameters for a dense layer (used as a concrete instance). -/
def zeroDense (nIn nOut : ℕ) : DenseParams nIn nOut :=
  { kernel := fun _ _ => 0, bias := fun _ => 0 }

/-- A concrete model whose parameters are all zero. -/
def zeroModel : ModelParams :=
  { l1 := zeroDense 23 64, l2 := zeroDense 64 32
    l3 := zeroDense 32 16, l4 := zeroDense 16 4 }

lemma clampGain_mem (z : ℤ) : -24 ≤ clampGain z ∧ clampGain z ≤ 12 := by
  unfold clampGain
  omega

lemma gainOf_mem (v : ℚ) : -24 ≤ gainOf v ∧ gainOf v ≤ 12 :=
  clampGain_mem _

lemma denseForward_zero {nIn nOut : ℕ} (act : ℚ → ℚ) (p : DenseParams nIn nOut)
    (hb : ∀ i, p.bias i = 0) (ha : act 0 = 0) :
    denseForward act p (fun _ => 0) = fun _ => 0 := by
  funext i
  simp [denseForward, hb, ha]

lemma relu_zero : relu 0 = 0 := by
  simp [relu]

lemma gainOf_zero : gainOf 0 = -6 := by
  have h : jsRound ((0 : ℚ) * 18 - 6) = -6 := by
    unfold jsRound
    rw [Int.floor_eq_iff]
    constructor <;> norm_num
  unfold gainOf
  rw [h]
  decide

/-- C2: every stem value of `predict`'s result is an integer in `[-24, 12]`
(the codomain `ℤ` carries integrality; the clamp yields the bounds), for every
tanh activation, every parameter set and every 23-element input vector. -/
theorem predict_gains_in_range (th : ℚ → ℚ) (m : ModelParams) (x : Vec 23) :
    (-24 ≤ (predictGains th m x).vocals ∧ (predictGains th m x).vocals ≤ 12) ∧
    (-24 ≤ (predictGains th m x).drums ∧ (predictGains th m x).drums ≤ 12) ∧
    (-24 ≤ (predictGains th m x).bass ∧ (predictGains th m x).bass ≤ 12) ∧
    (-24 ≤ (predictGains th m x).other ∧ (predictGains th m x).other ≤ 12) :=
  ⟨gainOf_mem _, gainOf_mem _, gainOf_mem _, gainOf_mem _⟩

/-- C9: on the all-zero input vector, a freshly created model (zero biases, as
TensorFlow.js dense layers default to zero bias initialization) predicts
exactly `-6` dB on all four stems, for any kernels and any activation with
`th 0 = 0` (as tanh has): the internal output is 0 and `0 * 18 - 6 = -6`. -/
theorem predict_zero_input_fresh_model (th : ℚ → ℚ) (m : ModelParams)
    (hth : th 0 = 0)
    (hb1 : ∀ i, m.l1.bias i = 0) (hb2 : ∀ i, m.l2.bias i = 0)
    (hb3 : ∀ i, m.l3.bias i = 0) (hb4 : ∀ i, m.l4.bias i = 0) :
    predictGains th m (fun _ => 0) =
      { vocals := -6, drums := -6, bass := -6, other := -6 } := by
  have h1 : denseForward relu m.l1 (fun _ => 0) = fun _ => 0 :=
    denseForward_zero relu m.l1 hb1 relu_zero
  have h2 : denseForward relu m.l2 (fun _ => 0) = fun _ => 0 :=
    denseForward_zero relu m.l2 hb2 relu_zero
  have h3 : denseForward relu m.l3 (fun _ => 0) = fun _ => 0 :=
    denseForward_zero relu m.l3 hb3 relu_zero
  have h4 : denseForward th m.l4 (fun _ => 0) = fun _ => 0 :=
    denseForward_zero th m.l4 hb4 hth
  have hf : forward th m (fun _ => 0) = fun _ => 0 := by
    unfold forward
    rw [h1, h2, h3, h4]
  simp [predictGains, hf, gainOf_zero]

/-- Witness for C9 at a concrete fresh model: the identity activation fixes 0,
and `zeroModel` has zero biases. -/
theorem predict_zero_input_fresh_model_witness :
    predictGains (fun x => x) zeroModel (fun _ => 0) =
      { vocals := -6, drums := -6, bass := -6, other := -6 } :=
  predict_zero_input_fresh_model (fun x => x) zeroModel rfl
    (fun _ => rfl) (fun _ => rfl) (fun _ => rfl) (fun _ => rfl)

/-- One of the four mixer channels (`channels` in `Mixer.js`). -/
inductive StemKey
  | vocals
  | drums
  | bass
  | other
deriving DecidableEq, Repr

/-- `{ ...gains, [key]: parseInt(val) }` in `handleChange`. -/
def setGain (g : GainSettings) (k : StemKey) (v : ℤ) : GainSettings :=
  match k with
  | .vocals => { g with vocals := v }
  | .drums => { g with drums := v }
  | .bass => { g with bass := v }
  | .other => { g with other := v }

/-- One slider edit: its arrival time in milliseconds, channel and value. -/
structure SliderEdit where
  t : ℕ
  key : StemKey
  val : ℤ
deriving DecidableEq, Repr

/-- The debounce quiet window of `handleChange` (`setTimeout(..., 200)`). -/
def debounceMs : ℕ := 200

/-- Render requests issued by `handleChange` over a timed sequence of slider
edits (times nondecreasing).  Each edit updates the gains; while playing and
not paused it clears any pending timer and schedules `updatePlayingAudio`
with the new gains `debounceMs` later.  That timer fires (producing a render
request) exactly when no further edit arrives before it expires, i.e. when
the edit is the last one or the next edit comes at least `debounceMs` later. -/
def sliderRenders (playing paused : Bool) (g : GainSettings) :
    List SliderEdit → List GainSettings
  | [] => []
  | e :: rest =>
    let g' := setGain g e.key e.val
    let timerFires := playing && !paused &&
      (match rest with
       | [] => true
       | e' :: _ => decide (e.t + debounceMs ≤ e'.t))
    (if timerFires then [g'] else []) ++ sliderRenders playing paused g' rest

/-- The gains after applying a sequence of slider edits in order. -/
def applyEdits (g : GainSettings) (es : List SliderEdit) : GainSettings :=
  es.foldl (fun acc e => setGain acc e.key e.val) g

/-- A burst: every edit follows its predecessor in under the quiet window. -/
def isBurst : List SliderEdit → Bool
  | [] => true
  | [_] => true
  | a :: b :: rest => decide (b.t < a.t + debounceMs) && isBurst (b :: rest)

/-- C1: while playing and not paused, a nonempty burst of slider edits each
arriving within the 200 ms quiet window of the previous one produces exactly
one render request, and it carries the gains resulting from the final edit. -/
theorem debounce_burst_single_render (playing paused : Bool)
    (g : GainSettings) (es : List SliderEdit)
    (hp : playing = true) (hq : paused = false)
    (hne : es ≠ []) (hb : isBurst es = true) :
    sliderRenders playing paused g es = [applyEdits g es] := by
  subst hp hq
  induction es generalizing g with
  | nil => exact absurd rfl hne
  | cons e rest ih =>
    match rest, hb with
    | [], _ =>
      simp [sliderRenders, applyEdits]
    | e' :: rest', hb =>
      rw [isBurst, Bool.and_eq_true, decide_eq_true_eq] at hb
      have hfire : ¬ (e.t + debounceMs ≤ e'.t) := by omega
      have := ih (setGain g e.key e.val) (by simp) hb.2
      simpa [sliderRenders, hfire, applyEdits] using this

/-- Witness for C1: eleven vocal-slider edits, 50 ms apart over 500 ms, while
playing; the single render carries the final value. -/
theorem debounce_burst_single_render_witness :
    sliderRenders true false { vocals := 0, drums := 0, bass := 0, other := 0 }
      [⟨0, .vocals, 1⟩, ⟨50, .vocals, 2⟩, ⟨100, .vocals, 3⟩, ⟨150, .vocals, 4⟩,
       ⟨200, .vocals, 5⟩, ⟨250, .vocals, 6⟩, ⟨300, .vocals, 7⟩, ⟨350, .vocals, 8⟩,
       ⟨400, .vocals, 9⟩, ⟨450, .vocals, 10⟩, ⟨500, .vocals, 11⟩] =
      [applyEdits { vocals := 0, drums := 0, bass := 0, other := 0 }
        [⟨0, .vocals, 1⟩, ⟨50, .vocals, 2⟩, ⟨100, .vocals, 3⟩, ⟨150, .vocals, 4⟩,
         ⟨200, .vocals, 5⟩, ⟨250, .vocals, 6⟩, ⟨300, .vocals, 7⟩, ⟨350, .vocals, 8⟩,
         ⟨400, .vocals, 9⟩, ⟨450, .vocals, 10⟩, ⟨500, .vocals, 11⟩]] :=
  debounce_burst_single_render true false _ _ rfl rfl (by decide) (by decide)

/-- Raw feature values computed by `extractAudioFeatures` before
normalization (`audioFeatures.js`), first channel of the decoded buffer. -/
structure AudioFeaturesRaw where
  duration : ℚ
  sampleRate : ℚ
  rms : ℚ
  zeroCrossingRate : ℚ
  spectralCentroid : ℚ
  spectralRolloff : ℚ
  spectralFlux : ℚ
  tempo : ℚ
  mfcc0 : ℚ
  mfcc1 : ℚ
  mfcc2 : ℚ
  mfcc3 : ℚ
  mfcc4 : ℚ
deriving Repr

/-- Normalized feature values, the result record of `normalizeFeatures`. -/
structure NormalizedFeatures where
  duration : ℚ
  sampleRate : ℚ
  rms : ℚ
  zeroCrossingRate : ℚ
  spectralCentroid : ℚ
  spectralRolloff : ℚ
  spectralFlux : ℚ
  tempo : ℚ
  mfcc0 : ℚ
  mfcc1 : ℚ
  mfcc2 : ℚ
  mfcc3 : ℚ
  mfcc4 : ℚ
deriving Repr

/-- `normalizeFeatures` in `audioFeatures.js`, field by field: most features
are scaled and clamped with `Math.min(·, 1)`, but `sampleRate` is only
divided by 48000 with no clamp, and `tempo` and the band energies are
affinely scaled with no clamp. -/
def normalizeFeatures (f : AudioFeaturesRaw) : NormalizedFeatures :=
  { duration := min (f.duration / 300) 1
    sampleRate := f.sampleRate / 48000
    rms := min (f.rms * 10) 1
    zeroCrossingRate := min (f.zeroCrossingRate * 100) 1
    spectralCentroid := min (f.spectralCentroid / 10000) 1
    spectralRolloff := min (f.spectralRolloff / 10000) 1
    spectralFlux := min (f.spectralFlux * 100) 1
    tempo := (f.tempo - 60) / 120
    mfcc0 := f.mfcc0 / 10
    mfcc1 := f.mfcc1 / 10
    mfcc2 := f.mfcc2 / 10
    mfcc3 := f.mfcc3 / 10
    mfcc4 := f.mfcc4 / 10 }

/-- C10: the duration, RMS, zero-crossing-rate, spectral centroid, rolloff
and flux features are clamped to at most 1, but the normalized sampleRate is
`sampleRate / 48000` with no clamp, so it exceeds 1 whenever the native
sample rate exceeds 48000 Hz. -/
theorem normalize_sample_rate_unclamped (f : AudioFeaturesRaw)
    (h : 48000 < f.sampleRate) :
    1 < (normalizeFeatures f).sampleRate ∧
    (normalizeFeatures f).duration ≤ 1 ∧
    (normalizeFeatures f).rms ≤ 1 ∧
    (normalizeFeatures f).zeroCrossingRate ≤ 1 ∧
    (normalizeFeatures f).spectralCentroid ≤ 1 ∧
    (normalizeFeatures f).spectralRolloff ≤ 1 ∧
    (normalizeFeatures f).spectralFlux ≤ 1 := by
  refine ⟨?_, min_le_right _ _, min_le_right _ _, min_le_right _ _,
    min_le_right _ _, min_le_right _ _, min_le_right _ _⟩
  show (1 : ℚ) < f.sampleRate / 48000
  rw [lt_div_iff₀ (by norm_num : (0 : ℚ) < 48000)]
  linarith

/-- Witness for C10: a 96 kHz file normalizes its sampleRate feature to 2. -/
theorem normalize_sample_rate_unclamped_witness :
    1 < (normalizeFeatures
      { duration := 60, sampleRate := 96000, rms := 0, zeroCrossingRate := 0
        spectralCentroid := 0, spectralRolloff := 0, spectralFlux := 0
        tempo := 120, mfcc0 := 0, mfcc1 := 0, mfcc2 := 0, mfcc3 := 0
        mfcc4 := 0 }).sampleRate :=
  (normalize_sample_rate_unclamped _ (by norm_num)).1

/-- A mix as passed to `onSave` by `Mixer.handleSave` and stored per user:
title, artist label, human-readable gain summary (`details`), gain settings
and the optional 23-element feature vector. -/
structure SavedMix where
  title : String
  artist : String
  details : String
  gains : Option GainSettings
  features : Option (List ℚ)
deriving DecidableEq

/-- The duplicate test of `handleSaveMix`: some already-saved song has the
same title and the same details summary. -/
def isDup (list : List SavedMix) (mix : SavedMix) : Bool :=
  list.any (fun s => s.title == mix.title && s.details == mix.details)

/-- The song-list update of `handleSaveMix`: keep the list unchanged on a
duplicate, otherwise append the mix. -/
def saveToList (list : List SavedMix) (mix : SavedMix) : List SavedMix :=
  if isDup list mix then list else list ++ [mix]

/-- The predicate counted when asking how many copies of a mix are stored. -/
def matchesMix (mix : SavedMix) : SavedMix → Bool :=
  fun s => s.title == mix.title && s.details == mix.details

lemma isDup_saveToList_self (list : List SavedMix) (m1 m2 : SavedMix)
    (ht : m2.title = m1.title) (hd : m2.details = m1.details) :
    isDup (saveToList list m1) m2 = true := by
  unfold saveToList
  by_cases h : isDup list m1 = true
  · rw [if_pos h]
    unfold isDup at h ⊢
    rw [List.any_eq_true] at h ⊢
    obtain ⟨s, hs, hp⟩ := h
    exact ⟨s, hs, by simp_all⟩
  · rw [if_neg h]
    unfold isDup
    rw [List.any_eq_true]
    exact ⟨m1, by simp, by simp [ht, hd]⟩

/-- C5: saving a mix whose title and details both equal those of an
already-saved mix is rejected, so saving two mixes with identical title and
identical gain summary stores exactly one copy: the second save leaves the
list unchanged, and when the list held no such mix before, exactly one
matching `SavedMix` is stored afterwards. -/
theorem save_duplicate_rejected (list : List SavedMix) (m1 m2 : SavedMix)
    (ht : m2.title = m1.title) (hd : m2.details = m1.details) :
    saveToList (saveToList list m1) m2 = saveToList list m1 ∧
    (isDup list m1 = false →
      (saveToList (saveToList list m1) m2).countP (matchesMix m1) = 1) := by
  have hdup := isDup_saveToList_self list m1 m2 ht hd
  constructor
  · rw [saveToList, if_pos hdup]
  · intro hnew
    rw [saveToList, if_pos hdup]
    rw [saveToList, if_neg (by simp [hnew])]
    rw [List.countP_append]
    have h0 : list.countP (matchesMix m1) = 0 := by
      rw [List.countP_eq_zero]
      intro s hs
      unfold isDup at hnew
      rw [List.any_eq_false] at hnew
      exact fun hp => hnew s hs (by simpa [matchesMix] using hp)
    rw [h0]
    simp [matchesMix, List.countP_cons]

/-- Witness for C5 on concrete data: saving the same title+details twice into
an empty list stores exactly one copy. -/
theorem save_duplicate_rejected_witness :
    saveToList (saveToList []
        ⟨"song", "Custom Mix", "v +6", some ⟨6, 0, 0, 0⟩, none⟩)
        ⟨"song", "Custom Mix", "v +6", some ⟨6, 0, 0, 0⟩, some []⟩ =
      saveToList [] ⟨"song", "Custom Mix", "v +6", some ⟨6, 0, 0, 0⟩, none⟩ ∧
    (isDup [] ⟨"song", "Custom Mix", "v +6", some ⟨6, 0, 0, 0⟩, none⟩ = false →
      (saveToList (saveToList []
          ⟨"song", "Custom Mix", "v +6", some ⟨6, 0, 0, 0⟩, none⟩)
          ⟨"song", "Custom Mix", "v +6", some ⟨6, 0, 0, 0⟩, some []⟩).countP
        (matchesMix ⟨"song", "Custom Mix", "v +6", some ⟨6, 0, 0, 0⟩, none⟩) = 1) :=
  save_duplicate_rejected _ _ _ rfl rfl

/-- Application state relevant to saving and deleting mixes: the current
user's song list and the preference model's parameters.  The parameter type
`P` is abstract: the TensorFlow.js weight set is an external collaborator. -/
structure AppState (P : Type) where
  songs : List SavedMix
  params : P

/-- The model-training step of `handleSaveMix`: `UserPreferenceModel.train`
is called exactly when the mix carries both features and gains; `fit` stands
for the library's single-example gradient step. -/
def trainOnMix {P : Type} (fit : P → List ℚ → GainSettings → P)
    (p : P) (mix : SavedMix) : P :=
  match mix.features, mix.gains with
  | some f, some g => fit p f g
  | _, _ => p

/-- `App.handleSaveMix`: first trains the model on the mix (when features and
gains are present), then updates the song list with the duplicate check. -/
def handleSaveMix {P : Type} (fit : P → List ℚ → GainSettings → P)
    (st : AppState P) (mix : SavedMix) : AppState P :=
  { songs := saveToList st.songs mix
    params := trainOnMix fit st.params mix }

/-- C6 counterexample: it is false that a duplicate-rejected save leaves the
model parameters unchanged.  `handleSaveMix` invokes `train` before and
independently of the duplicate check, so a counting `fit` observes a training
step even though the save is rejected. -/
theorem duplicate_save_still_trains :
    ¬ (∀ (fit : ℕ → List ℚ → GainSettings → ℕ) (st : AppState ℕ)
        (mix : SavedMix), isDup st.songs mix = true →
        (handleSaveMix fit st mix).params = st.params) := by
  intro h
  have := h (fun p _ _ => p + 1)
    { songs := [⟨"song", "Custom Mix", "v +6", some ⟨6, 0, 0, 0⟩, some []⟩]
      params := 0 }
    ⟨"song", "Custom Mix", "v +6", some ⟨6, 0, 0, 0⟩, some []⟩
    (by decide)
  simp [handleSaveMix, trainOnMix] at this

/-- C6 amended: a save rejected as a duplicate leaves the song list
unchanged, but the model is trained regardless of the duplicate check:
whenever the mix carries features and gains, the parameters become
`fit params features gains` even when the save is rejected. -/
theorem duplicate_save_song_list_unchanged {P : Type}
    (fit : P → List ℚ → GainSettings → P) (st : AppState P) (mix : SavedMix)
    (hdup : isDup st.songs mix = true) :
    (handleSaveMix fit st mix).songs = st.songs ∧
    (∀ f g, mix.features = some f → mix.gains = some g →
      (handleSaveMix fit st mix).params = fit st.params f g) := by
  constructor
  · show saveToList st.songs mix = st.songs
    rw [saveToList, if_pos hdup]
  · intro f g hf hg
    show trainOnMix fit st.params mix = fit st.params f g
    rw [trainOnMix, hf, hg]

/-- Witness for the amended C6 at a concrete duplicate save. -/
theorem duplicate_save_song_list_unchanged_witness :
    (handleSaveMix (fun (p : ℕ) _ _ => p + 1)
      { songs := [⟨"song", "Custom Mix", "v +6", some ⟨6, 0, 0, 0⟩, some []⟩]
        params := 0 }
      ⟨"song", "Custom Mix", "v +6", some ⟨6, 0, 0, 0⟩, some []⟩).songs =
      [⟨"song", "Custom Mix", "v +6", some ⟨6, 0, 0, 0⟩, some []⟩] ∧
    (∀ f g,
      (⟨"song", "Custom Mix", "v +6", some ⟨6, 0, 0, 0⟩, some []⟩ :
        SavedMix).features = some f →
      (⟨"song", "Custom Mix", "v +6", some ⟨6, 0, 0, 0⟩, some []⟩ :
        SavedMix).gains = some g →
      (handleSaveMix (fun (p : ℕ) _ _ => p + 1)
        { songs := [⟨"song", "Custom Mix", "v +6", some ⟨6, 0, 0, 0⟩, some []⟩]
          params := 0 }
        ⟨"song", "Custom Mix", "v +6", some ⟨6, 0, 0, 0⟩, some []⟩).params =
        (fun (p : ℕ) _ _ => p + 1) 0 f g) :=
  duplicate_save_song_list_unchanged _ _ _ (by decide)

/-- `userSongs.filter((_, idx) => idx !== songIndex)` in `handleDeleteSong`:
drop the entry whose position equals the given index. -/
def removeAtIdx (l : List SavedMix) (i : ℕ) : List SavedMix :=
  (l.enum.filter (fun p => p.1 ≠ i)).map Prod.snd

/-- The filter of `UserPreferenceModel.batchTrain`: songs carrying both
stored features and gains. -/
def validSongs (songs : List SavedMix) : List SavedMix :=
  songs.filter (fun s => s.features.isSome && s.gains.isSome)

/-- `UserPreferenceModel.batchTrain`: no-op when no song qualifies, else a
full retraining pass (`fitBatch`) over the qualifying songs. -/
def batchTrainModel {P : Type} (fitBatch : P → List SavedMix → P)
    (p : P) (songs : List SavedMix) : P :=
  if (validSongs songs).isEmpty then p else fitBatch p (validSongs songs)

/-- `App.handleDeleteSong`: remove the song at the index, then — when the
model is initialized and songs remain — batch retrain on the remaining
songs; when none remain, only log. -/
def handleDeleteSong {P : Type} (fitBatch : P → List SavedMix → P)
    (initialized : Bool) (st : AppState P) (idx : ℕ) : AppState P :=
  let updated := removeAtIdx st.songs idx
  { songs := updated
    params :=
      if initialized && decide (0 < updated.length) then
        batchTrainModel fitBatch st.params updated
      else
        st.params }

/-- C7: deleting the only saved song of a user — one carrying features and
gains — empties the list and leaves the model parameters unchanged for every
batch-training function, i.e. no batch retrain is triggered on the empty
remainder. -/
theorem delete_only_song_no_retrain {P : Type}
    (fitBatch : P → List SavedMix → P) (initialized : Bool)
    (st : AppState P) (s : SavedMix)
    (hsongs : st.songs = [s])
    (_hfeat : s.features.isSome = true) (_hgain : s.gains.isSome = true) :
    (handleDeleteSong fitBatch initialized st 0).params = st.params ∧
    (handleDeleteSong fitBatch initialized st 0).songs = [] := by
  have hrem : removeAtIdx st.songs 0 = [] := by
    rw [hsongs]
    rfl
  unfold handleDeleteSong
  rw [hrem]
  simp

/-- Witness for C7: deleting the single stored song of a concrete state. -/
theorem delete_only_song_no_retrain_witness :
    (handleDeleteSong (fun (p : ℕ) _ => p + 1) true
      { songs := [⟨"song", "Custom Mix", "v +6", some ⟨6, 0, 0, 0⟩, some []⟩]
        params := 0 } 0).params = 0 ∧
    (handleDeleteSong (fun (p : ℕ) _ => p + 1) true
      { songs := [⟨"song", "Custom Mix", "v +6", some ⟨6, 0, 0, 0⟩, some []⟩]
        params := 0 } 0).songs = [] :=
  delete_only_song_no_retrain _ true _
    ⟨"song", "Custom Mix", "v +6", some ⟨6, 0, 0, 0⟩, some []⟩ rfl rfl rfl

/-- Observable state of one HTMLAudio stream as managed by the mixer. -/
structure StreamState where
  volume : ℚ
  currentTime : ℚ
  isPaused : Bool
deriving DecidableEq, Repr

/-- The environment of one `updatePlayingAudio` run: the currently live
stream at entry, the outcome of the render request, the readiness of the new
stream, its reported duration, and whether `newAudio.play()` succeeds. -/
structure UpdateEnv where
  old : StreamState
  renderOk : Bool
  hasPath : Bool
  ready : Bool
  newDuration : Option ℚ
  playOk : Bool
deriving DecidableEq, Repr

/-- `Math.min(currentTime, newAudio.duration || currentTime)`: the start
position of the new stream, the old position clamped to the new duration
when a (nonzero) duration is reported. -/
def targetTime (env : UpdateEnv) : ℚ :=
  match env.newDuration with
  | some d => min env.old.currentTime d
  | none => env.old.currentTime

/-- The control-flow outcome of one `updatePlayingAudio` run.
`renderFailed` is the catch branch (failed fetch, non-OK response, or
missing path); `notReady` means neither `canplaythrough` nor the 500 ms
fallback readiness test arrived, so the handover never starts; the swap
outcomes record the position given to the new stream. -/
inductive UpdateResult
  | renderFailed
  | notReady
  | swappedWhilePaused (target : ℚ)
  | crossfaded (target : ℚ)
  | fallbackSwap (target : ℚ)
deriving DecidableEq, Repr

/-- `updatePlayingAudio` in `Mixer.js`, branch by branch: render failure is
caught and only logged; once the new stream is ready, `wasPlaying` (the old
stream not paused at entry) selects between a plain swap and starting the
new stream; a `play()` rejection takes the fallback swap of the catch inside
`handleCanPlay`. -/
def updatePlayingAudio (env : UpdateEnv) : UpdateResult :=
  if !(env.renderOk && env.hasPath) then .renderFailed
  else if !env.ready then .notReady
  else if env.old.isPaused then .swappedWhilePaused (targetTime env)
  else if env.playOk then .crossfaded (targetTime env)
  else .fallbackSwap (targetTime env)

/-- Final state of the old stream after `updatePlayingAudio`: untouched on a
render failure or when the new stream never becomes ready; otherwise paused
(`oldAudio.pause()`), its volume restored after the crossfade. -/
def finalOld (env : UpdateEnv) : StreamState :=
  match updatePlayingAudio env with
  | .renderFailed => env.old
  | .notReady => env.old
  | .swappedWhilePaused _ => { env.old with isPaused := true }
  | .crossfaded _ => { env.old with isPaused := true }
  | .fallbackSwap _ => { env.old with isPaused := true }

/-- Whether `audioRef.current` points to the new stream after the run. -/
def liveIsNew (env : UpdateEnv) : Bool :=
  match updatePlayingAudio env with
  | .renderFailed => false
  | .notReady => false
  | _ => true

/-- Final state of the new stream when it became the live reference: volume
1, positioned at the target time, playing exactly when a crossfade ran (in
the fallback swap, `play()` is retried with an unknown result, so the paused
flag is not asserted there and the fallback's new state is kept abstract by
`finalNewOf`). -/
def finalNewOf (env : UpdateEnv) (retryOk : Bool) : Option StreamState :=
  match updatePlayingAudio env with
  | .renderFailed => none
  | .notReady => none
  | .swappedWhilePaused t => some { volume := 1, currentTime := t, isPaused := true }
  | .crossfaded t => some { volume := 1, currentTime := t, isPaused := false }
  | .fallbackSwap t => some { volume := 1, currentTime := t, isPaused := !retryOk }

/-- `fadeDuration = 150` ms in `handleCanPlay`. -/
def fadeDuration : ℕ := 150

/-- `steps = 30` in `handleCanPlay`. -/
def fadeSteps : ℕ := 30

/-- `stepTime = fadeDuration / steps` (5 ms per step). -/
def fadeStepTime : ℚ := (fadeDuration : ℚ) / (fadeSteps : ℚ)

/-- New stream volume after `k` fade steps: `Math.min(k * (1 / steps), 1)`. -/
def newVolAt (k : ℕ) : ℚ := min ((k : ℚ) * (1 / (fadeSteps : ℚ))) 1

/-- Old stream volume after `k` fade steps: `Math.max(1 - k * (1 / steps), 0)`. -/
def oldVolAt (k : ℕ) : ℚ := max (1 - (k : ℚ) * (1 / (fadeSteps : ℚ))) 0

lemma newVolAt_eq (k : ℕ) (hk : k ≤ fadeSteps) : newVolAt k = (k : ℚ) / 30 := by
  unfold newVolAt fadeSteps at *
  rw [min_eq_left]
  · ring
  · rw [mul_one_div, div_le_one (by norm_num)]
    exact_mod_cast hk

lemma oldVolAt_eq (k : ℕ) (hk : k ≤ fadeSteps) :
    oldVolAt k = 1 - (k : ℚ) / 30 := by
  unfold oldVolAt fadeSteps at *
  rw [max_eq_left]
  · ring
  · rw [sub_nonneg, mul_one_div, div_le_one (by norm_num)]
    exact_mod_cast hk

/-- C4: when a live update succeeds while playback is in progress, the run
takes the crossfade branch with the new stream positioned at the old
position clamped to the new duration; the fade is 150 ms in 30 steps of 5 ms
each; at every step `k ≤ 30` the new volume is `k/30` and the old volume is
`1 - k/30` (linear ramps 0→1 and 1→0 whose sum is 1 at every step); after
the last step the old stream is paused with its volume restored and the new
stream is the sole live reference, playing at volume 1. -/
theorem crossfade_handover (env : UpdateEnv) (d : ℚ)
    (hr : env.renderOk = true) (hp : env.hasPath = true)
    (hc : env.ready = true) (hplay : env.old.isPaused = false)
    (hok : env.playOk = true) (hd : env.newDuration = some d) :
    updatePlayingAudio env = .crossfaded (min env.old.currentTime d) ∧
    fadeDuration = 150 ∧ (fadeSteps : ℚ) * fadeStepTime = 150 ∧
    (∀ k, k ≤ fadeSteps →
      newVolAt k = (k : ℚ) / 30 ∧ oldVolAt k = 1 - (k : ℚ) / 30) ∧
    (∀ k, k ≤ fadeSteps → newVolAt k + oldVolAt k = 1) ∧
    newVolAt 0 = 0 ∧ newVolAt fadeSteps = 1 ∧ oldVolAt fadeSteps = 0 ∧
    finalOld env = { env.old with isPaused := true } ∧
    (finalOld env).volume = env.old.volume ∧
    liveIsNew env = true ∧
    finalNewOf env true =
      some { volume := 1, currentTime := min env.old.currentTime d
             isPaused := false } := by
  have hres : updatePlayingAudio env = .crossfaded (min env.old.currentTime d) := by
    unfold updatePlayingAudio
    rw [hr, hp, hc, hplay, hok]
    simp [targetTime, hd]
  refine ⟨hres, rfl, by norm_num [fadeStepTime, fadeSteps, fadeDuration], ?_, ?_, ?_, ?_, ?_, ?_, ?_, ?_, ?_⟩
  · exact fun k hk => ⟨newVolAt_eq k hk, oldVolAt_eq k hk⟩
  · intro k hk
    rw [newVolAt_eq k hk, oldVolAt_eq k hk]
    ring
  · rw [newVolAt_eq 0 (by norm_num)]
    norm_num
  · rw [newVolAt_eq fadeSteps le_rfl]
    norm_num [fadeSteps]
  · rw [oldVolAt_eq fadeSteps le_rfl]
    norm_num [fadeSteps]
  · unfold finalOld
    rw [hres]
  · unfold finalOld
    rw [hres]
  · unfold liveIsNew
    rw [hres]
  · unfold finalNewOf
    rw [hres]

/-- Witness for C4 at a concrete environment: old stream playing at 10 s,
new render 5 s long. -/
theorem crossfade_handover_witness :
    updatePlayingAudio
        { old := { volume := 1, currentTime := 10, isPaused := false }
          renderOk := true, hasPath := true, ready := true
          newDuration := some 5, playOk := true } =
      .crossfaded (min (10 : ℚ) 5) ∧
    fadeDuration = 150 ∧ (fadeSteps : ℚ) * fadeStepTime = 150 ∧
    (∀ k, k ≤ fadeSteps →
      newVolAt k = (k : ℚ) / 30 ∧ oldVolAt k = 1 - (k : ℚ) / 30) ∧
    (∀ k, k ≤ fadeSteps → newVolAt k + oldVolAt k = 1) ∧
    newVolAt 0 = 0 ∧ newVolAt fadeSteps = 1 ∧ oldVolAt fadeSteps = 0 ∧
    finalOld
        { old := { volume := 1, currentTime := 10, isPaused := false }
          renderOk := true, hasPath := true, ready := true
          newDuration := some 5, playOk := true } =
      { volume := 1, currentTime := 10, isPaused := true } ∧
    (finalOld
        { old := { volume := 1, currentTime := 10, isPaused := false }
          renderOk := true, hasPath := true, ready := true
          newDuration := some 5, playOk := true }).volume = 1 ∧
    liveIsNew
        { old := { volume := 1, currentTime := 10, isPaused := false }
          renderOk := true, hasPath := true, ready := true
          newDuration := some 5, playOk := true } = true ∧
    finalNewOf
        { old := { volume := 1, currentTime := 10, isPaused := false }
          renderOk := true, hasPath := true, ready := true
          newDuration := some 5, playOk := true } true =
      some { volume := 1, currentTime := min (10 : ℚ) 5, isPaused := false } :=
  crossfade_handover _ 5 rfl rfl rfl rfl rfl rfl

/-- C3 counterexample: it is false that every failure during a live gain
update leaves the previously playing stream untouched.  When the render
succeeded but `newAudio.play()` rejects during the handover, the fallback in
`handleCanPlay`'s catch pauses the old stream and swaps the reference, so
the old stream does not keep playing. -/
theorem live_update_failure_interrupts_old :
    ¬ (∀ env : UpdateEnv,
        (env.renderOk = false ∨ env.hasPath = false ∨
          (env.ready = true ∧ env.old.isPaused = false ∧ env.playOk = false)) →
        finalOld env = env.old) := by
  intro h
  have := h
    { old := { volume := 1, currentTime := 10, isPaused := false }
      renderOk := true, hasPath := true, ready := true
      newDuration := some 5, playOk := false }
    (Or.inr (Or.inr ⟨rfl, rfl, rfl⟩))
  simp [finalOld, updatePlayingAudio, targetTime] at this

/-- C3 amended: a failure of the render request itself — failed fetch,
non-OK response, or a response without an audio path — leaves the previously
playing stream untouched and keeps it the live reference, with the failure
only logged; but a `play()` rejection while starting the new stream during
the handover instead pauses the old stream and swaps the live reference to
the new stream (the fallback swap in `handleCanPlay`'s catch), so the old
stream does not keep playing in that case. -/
theorem render_failure_leaves_old_untouched (env : UpdateEnv) :
    ((env.renderOk = false ∨ env.hasPath = false) →
      finalOld env = env.old ∧ liveIsNew env = false) ∧
    (env.renderOk = true → env.hasPath = true → env.ready = true →
      env.old.isPaused = false → env.playOk = false →
      finalOld env = { env.old with isPaused := true } ∧
      liveIsNew env = true) := by
  constructor
  · intro hfail
    have hres : updatePlayingAudio env = .renderFailed := by
      unfold updatePlayingAudio
      rcases hfail with h | h <;> rw [h] <;> simp
    constructor
    · unfold finalOld
      rw [hres]
    · unfold liveIsNew
      rw [hres]
  · intro hr hp hc hplay hok
    have hres : updatePlayingAudio env = .fallbackSwap (targetTime env) := by
      unfold updatePlayingAudio
      rw [hr, hp, hc, hplay, hok]
      simp
    constructor
    · unfold finalOld
      rw [hres]
    · unfold liveIsNew
      rw [hres]

/-- Witness for the amended C3: a concrete failed render leaves a playing
stream untouched, and a concrete `play()` rejection pauses it and swaps. -/
theorem render_failure_leaves_old_untouched_witness :
    (finalOld
        { old := { volume := 1, currentTime := 10, isPaused := false }
          renderOk := false, hasPath := false, ready := false
          newDuration := none, playOk := false } =
        { volume := 1, currentTime := 10, isPaused := false } ∧
      liveIsNew
        { old := { volume := 1, currentTime := 10, isPaused := false }
          renderOk := false, hasPath := false, ready := false
          newDuration := none, playOk := false } = false) ∧
    (finalOld
        { old := { volume := 1, currentTime := 10, isPaused := false }
          renderOk := true, hasPath := true, ready := true
          newDuration := some 5, playOk := false } =
        { volume := 1, currentTime := 10, isPaused := true } ∧
      liveIsNew
        { old := { volume := 1, currentTime := 10, isPaused := false }
          renderOk := true, hasPath := true, ready := true
          newDuration := some 5, playOk := false } = true) :=
  ⟨(render_failure_leaves_old_untouched _).1 (Or.inl rfl),
   (render_failure_leaves_old_untouched _).2 rfl rfl rfl rfl rfl⟩

/-- Status values of the separation-progress endpoint. -/
inductive SepStatus
  | processing
  | completed
  | error
deriving DecidableEq, Repr

/-- One poll outcome as seen by `pollProgress`: the fetch threw
(`unreachable`), the response was not OK (`httpFail`), or a status record
arrived with a progress fraction. -/
inductive PollResp
  | unreachable
  | httpFail
  | ok (status : SepStatus) (progress : ℚ)
deriving DecidableEq, Repr

/-- Alerts surfaced to the user on a terminal separation status. -/
inductive SepAlert
  | separationComplete
  | separationError
deriving DecidableEq, Repr

/-- The mixer state touched by `pollProgress`: the displayed progress
percentage, the `separating` flag, whether the polling interval is still
active (`progressIntervalRef`), and the alerts surfaced so far. -/
structure PollState where
  progressPct : ℤ
  separating : Bool
  intervalActive : Bool
  alerts : List SepAlert
deriving DecidableEq, Repr

/-- One `pollProgress` run: a failed or non-OK request only logs and keeps
polling; otherwise the rounded percentage is displayed, and
`completed` with at least 100 % or an explicit `error` status clears the
interval, ends `separating`, surfaces one alert and stops polling (the
returned Bool is `shouldContinue`). -/
def pollStep (st : PollState) (r : PollResp) : PollState × Bool :=
  match r with
  | .unreachable => (st, true)
  | .httpFail => (st, true)
  | .ok status p =>
    let pv := jsRound (p * 100)
    if status = .completed ∧ 100 ≤ pv then
      ({ progressPct := 100, separating := false, intervalActive := false
         alerts := st.alerts ++ [.separationComplete] }, false)
    else if status = .error then
      ({ progressPct := pv, separating := false, intervalActive := false
         alerts := st.alerts ++ [.separationError] }, false)
    else
      ({ st with progressPct := pv }, true)

/-- The interval loop started by `handleUpload`: each tick runs `pollProgress`
while the interval is active; a `false` return (and `pollProgress` itself)
clears the interval, so later ticks do nothing. -/
def runPolls (st : PollState) : List PollResp → PollState
  | [] => st
  | r :: rs => if st.intervalActive then runPolls (pollStep st r).1 rs else st

/-- A terminal poll response: `completed` whose rounded percentage reaches
100, or an explicit `error` status. -/
def isTerminalResp (r : PollResp) : Bool :=
  match r with
  | .ok .completed p => decide (100 ≤ jsRound (p * 100))
  | .ok .error _ => true
  | _ => false

lemma pollStep_nonterminal (st : PollState) (r : PollResp)
    (h : isTerminalResp r = false) :
    (pollStep st r).2 = true ∧
    (pollStep st r).1.intervalActive = st.intervalActive ∧
    (pollStep st r).1.alerts = st.alerts := by
  match r with
  | .unreachable => exact ⟨rfl, rfl, rfl⟩
  | .httpFail => exact ⟨rfl, rfl, rfl⟩
  | .ok status p =>
    match status with
    | .processing =>
      refine ⟨?_, ?_, ?_⟩ <;> simp [pollStep]
    | .completed =>
      have hlt : ¬ (100 ≤ jsRound (p * 100)) := by
        simpa [isTerminalResp] using h
      refine ⟨?_, ?_, ?_⟩ <;> simp [pollStep, hlt]
    | .error => simp [isTerminalResp] at h

lemma pollStep_terminal (st : PollState) (r : PollResp)
    (h : isTerminalResp r = true) :
    (pollStep st r).2 = false ∧
    (pollStep st r).1.intervalActive = false ∧
    ∃ a, (pollStep st r).1.alerts = st.alerts ++ [a] := by
  match r with
  | .unreachable => simp [isTerminalResp] at h
  | .httpFail => simp [isTerminalResp] at h
  | .ok status p =>
    match status with
    | .processing => simp [isTerminalResp] at h
    | .completed =>
      have hge : 100 ≤ jsRound (p * 100) := by
        simpa [isTerminalResp] using h
      exact ⟨by simp [pollStep, hge], by simp [pollStep, hge],
        .separationComplete, by simp [pollStep, hge]⟩
    | .error =>
      exact ⟨by simp [pollStep], by simp [pollStep],
        .separationError, by simp [pollStep]⟩

lemma runPolls_inactive (st : PollState) (rs : List PollResp)
    (h : st.intervalActive = false) : runPolls st rs = st := by
  match rs with
  | [] => rfl
  | r :: rs' => simp [runPolls, h]

lemma runPolls_pre_terminal (t : PollResp) (post : List PollResp)
    (ht : isTerminalResp t = true) (pre : List PollResp) :
    ∀ st : PollState, st.intervalActive = true → st.alerts = [] →
      (∀ r ∈ pre, isTerminalResp r = false) →
      (runPolls st (pre ++ t :: post)).intervalActive = false ∧
      (runPolls st (pre ++ t :: post)).alerts.length = 1 ∧
      runPolls st (pre ++ t :: post) = runPolls st (pre ++ [t]) := by
  induction pre with
  | nil =>
    intro st hact hal _
    obtain ⟨-, hact', a, ha⟩ := pollStep_terminal st t ht
    have h1 : runPolls st ([] ++ t :: post) = (pollStep st t).1 := by
      simp only [List.nil_append, runPolls, hact, if_true]
      exact runPolls_inactive _ post hact'
    have h2 : runPolls st ([] ++ [t]) = (pollStep st t).1 := by
      simp only [List.nil_append, runPolls, hact, if_true]
    refine ⟨by rw [h1]; exact hact', ?_, by rw [h1, h2]⟩
    rw [h1, ha, hal]
    simp
  | cons r pre' ih =>
    intro st hact hal hpre
    obtain ⟨-, hact', hal'⟩ := pollStep_nonterminal st r (hpre r (by simp))
    have hact'' : (pollStep st r).1.intervalActive = true := by
      rw [hact', hact]
    have hal'' : (pollStep st r).1.alerts = [] := by
      rw [hal', hal]
    have hih := ih (pollStep st r).1 hact'' hal''
      (fun x hx => hpre x (by simp [hx]))
    have e1 : runPolls st ((r :: pre') ++ (t :: post)) =
        runPolls (pollStep st r).1 (pre' ++ t :: post) := by
      simp [runPolls, hact]
    have e2 : runPolls st ((r :: pre') ++ [t]) =
        runPolls (pollStep st r).1 (pre' ++ [t]) := by
      simp [runPolls, hact]
    exact ⟨by rw [e1]; exact hih.1, by rw [e1]; exact hih.2.1,
      by rw [e1, e2]; exact hih.2.2⟩

/-- C8: starting from an active polling interval with no alert surfaced,
if the responses are any run of non-terminal polls (including unreachable
ones, which are transient and keep polling) followed by a terminal response
— `completed` with rounded progress at least 100 %, or an explicit error —
then the run stops there: the interval is cleared, exactly one alert is
surfaced, every response after the terminal one is ignored, and each
non-terminal response keeps `shouldContinue` true with the interval intact. -/
theorem polling_stops_at_terminal (st : PollState) (pre : List PollResp)
    (t : PollResp) (post : List PollResp)
    (hact : st.intervalActive = true) (hal : st.alerts = [])
    (hpre : ∀ r ∈ pre, isTerminalResp r = false)
    (ht : isTerminalResp t = true) :
    (runPolls st (pre ++ t :: post)).intervalActive = false ∧
    (runPolls st (pre ++ t :: post)).alerts.length = 1 ∧
    runPolls st (pre ++ t :: post) = runPolls st (pre ++ [t]) ∧
    (∀ r, isTerminalResp r = false →
      (pollStep st r).2 = true ∧
      (pollStep st r).1.intervalActive = st.intervalActive) := by
  obtain ⟨h1, h2, h3⟩ := runPolls_pre_terminal t post ht pre st hact hal hpre
  exact ⟨h1, h2, h3, fun r hr =>
    ⟨(pollStep_nonterminal st r hr).1, (pollStep_nonterminal st r hr).2.1⟩⟩

/-- Witness for C8: a transient unreachable poll and a 50 % processing poll,
then completion at 100 %, then a late response that is ignored. -/
theorem polling_stops_at_terminal_witness :
    (runPolls { progressPct := 0, separating := true, intervalActive := true
                alerts := [] }
      ([.unreachable, .ok .processing (1/2)] ++
        (.ok .completed 1) :: [.ok .error 0])).intervalActive = false ∧
    (runPolls { progressPct := 0, separating := true, intervalActive := true
                alerts := [] }
      ([.unreachable, .ok .processing (1/2)] ++
        (.ok .completed 1) :: [.ok .error 0])).alerts.length = 1 ∧
    runPolls { progressPct := 0, separating := true, intervalActive := true
               alerts := [] }
      ([.unreachable, .ok .processing (1/2)] ++
        (.ok .completed 1) :: [.ok .error 0]) =
      runPolls { progressPct := 0, separating := true, intervalActive := true
                 alerts := [] }
        ([.unreachable, .ok .processing (1/2)] ++ [.ok .completed 1]) ∧
    (∀ r, isTerminalResp r = false →
      (pollStep { progressPct := 0, separating := true, intervalActive := true
                  alerts := [] } r).2 = true ∧
      (pollStep { progressPct := 0, separating := true, intervalActive := true
                  alerts := [] } r).1.intervalActive = true) :=
  polling_stops_at_terminal _ _ _ _ rfl rfl
    (by
      intro r hr
      simp only [List.mem_cons, List.not_mem_nil, or_false] at hr
      rcases hr with rfl | rfl <;> rfl)
    (by
      show decide (100 ≤ jsRound ((1 : ℚ) * 100)) = true
      rw [decide_eq_true_eq]
      unfold jsRound
      rw [Int.le_floor]
      norm_num)
